import Mathlib

/-
  Verification of the FileHub event pipeline against its specification.

  Shallow embedding of:
    - include/file_change_handler.py  (FileChangeHandler)
    - include/database_manager.py     (DatabaseManager)
    - include/sftp_manager.py         (SFTPManager)

  Conventions:
    - Paths are strings; POSIX separators.
    - The OS filesystem is a pure value (structure FileSystem below);
      reads that would raise IOError/OSError are modelled by a readOk flag.
    - Python string helpers that the code uses (os.path.basename,
      pathlib.Path.parts / .name / .suffix, str.strip, str.split) are
      re-implemented structurally over lists of characters so that they
      reduce inside the kernel.
-/

set_option maxRecDepth 8000

namespace FileHub

/-- Character-list equality test for a leading segment (used by the substring test). -/
def listPrefixOf : List Char → List Char → Bool
  | [], _ => true
  | _ :: _, [] => false
  | a :: as, b :: bs => a == b && listPrefixOf as bs

/-- Python substring containment: `pat in s` over character lists. -/
def listSubstr (pat : List Char) : List Char → Bool
  | [] => pat.isEmpty
  | b :: bs => listPrefixOf pat (b :: bs) || listSubstr pat bs

/-- Python substring containment on strings: `pat in s`. -/
def strSubstr (pat s : String) : Bool :=
  listSubstr pat.toList s.toList

/-- Split a character list on a separator character (like Python's str.split(sep)). -/
def splitOnChar (sep : Char) : List Char → List (List Char)
  | [] => [[]]
  | c :: cs =>
    let r := splitOnChar sep cs
    if c == sep then [] :: r
    else
      match r with
      | [] => [[c]]
      | h :: t => (c :: h) :: t

/-- Components of a path string split on every slash (empty components kept). -/
def slashComponents (p : String) : List String :=
  (splitOnChar '/' p.toList).map String.mk

/-- os.path.basename on POSIX: the part after the last slash. -/
def basename (p : String) : String :=
  (slashComponents p).getLastD p

/-- pathlib Path(p).parts: slash components with empty and "." components dropped,
a leading "/" component kept for absolute paths. -/
def pathParts (p : String) : List String :=
  let comps := (slashComponents p).filter (fun c => !(c == "" || c == "."))
  if listPrefixOf ['/'] p.toList then "/" :: comps else comps

/-- One iteration of the loop body of FileChangeHandler.should_ignore: the three
matching relations tested for a single pattern, in source order -- substring of
the full path string, equality with a path component, equality with the basename. -/
def patternMatches (pat p : String) : Bool :=
  strSubstr pat p || (pathParts p).contains pat || (basename p == pat)

/-- FileChangeHandler.should_ignore: true when any loaded pattern matches. -/
def should_ignore (patterns : List String) (p : String) : Bool :=
  patterns.any (fun pat => patternMatches pat p)

/-- C1: for every path and every rule set, should_ignore is true exactly when some
pattern in the set matches by substring, path-component equality, or basename
equality; and consequently adding a pattern that matches by none of the three
relations never changes the verdict. -/
theorem C1_should_ignore_characterization (patterns : List String) (p : String) :
    (should_ignore patterns p = true ↔
      ∃ pat ∈ patterns, patternMatches pat p = true)
    ∧ ∀ pat, patternMatches pat p = false →
        should_ignore (pat :: patterns) p = should_ignore patterns p := by
  constructor
  · simp [should_ignore, List.any_eq_true]
  · intro pat hpat
    simp [should_ignore, hpat]

/-- Witness for C1 at concrete inputs: adding the non-matching pattern "zzz" leaves
the verdict for "/a/b.txt" unchanged. -/
theorem C1_witness :
    should_ignore ["zzz", "b.txt"] "/a/b.txt" = should_ignore ["b.txt"] "/a/b.txt" :=
  (C1_should_ignore_characterization ["b.txt"] "/a/b.txt").2 "zzz" (by decide)

/-- pathlib Path(p).name: the last nonempty slash component ("" when there is none). -/
def pathName (p : String) : String :=
  ((slashComponents p).filter (fun c => !(c == ""))).getLastD ""

/-- Index of the last '.' in a character list (Python str.rfind('.'), none for -1). -/
def lastDotIdx (cs : List Char) : Option Nat :=
  match cs.reverse.findIdx? (fun c => c == '.') with
  | some j => some (cs.length - 1 - j)
  | none => none

/-- pathlib Path(p).suffix: name[i:] where i = name.rfind('.'), provided
0 < i < len(name) - 1; otherwise the empty string. -/
def pySuffix (p : String) : String :=
  let name := pathName p
  let cs := name.toList
  match lastDotIdx cs with
  | some i => if 0 < i ∧ i < cs.length - 1 then String.mk (cs.drop i) else ""
  | none => ""

/-- ASCII lower-casing of one character (Python str.lower restricted to the ASCII
file extensions this program compares against). -/
def asciiLowerChar (c : Char) : Char :=
  if 65 ≤ c.toNat ∧ c.toNat ≤ 90 then Char.ofNat (c.toNat + 32) else c

/-- ASCII lower-casing of a string. -/
def asciiLower (s : String) : String :=
  String.mk (s.toList.map asciiLowerChar)

/-- FileChangeHandler.text_extensions: the fixed known-text extension set. -/
def text_extensions : List String :=
  [".txt", ".py", ".js", ".html", ".css", ".json", ".xml", ".yaml", ".yml",
   ".md", ".rst", ".ini", ".cfg", ".conf", ".log", ".csv", ".tsv", ".sql",
   ".sh", ".bash", ".zsh", ".fish", ".bat", ".cmd", ".ps1", ".r", ".java",
   ".cpp", ".c", ".h", ".hpp", ".cs", ".php", ".rb", ".go", ".rs", ".swift",
   ".kt", ".scala", ".clj", ".hs", ".ml", ".fs", ".vb", ".pl", ".pm", ".tcl",
   ".lua", ".scm", ".el", ".vim", ".tex", ".bib", ".sty", ".cls", ".dtx",
   ".ltx", ".aux", ".bbl", ".blg", ".fdb_latexmk", ".fls", ".out", ".synctex.gz"]

/-- Pure model of the OS filesystem as the handler observes it. A read that
would raise IOError/OSError is modelled by readOk = false. byteContent is the
file's byte content; textContent its decoded text content (open with
errors equal to ignore); getSize is os.path.getsize. -/
structure FileSystem where
  isFile : String → Bool
  pathExists : String → Bool
  byteContent : String → List Nat
  readOk : String → Bool
  getSize : String → Nat
  textContent : String → String

/-- Model of mimetypes.guess_type: the table-driven MIME guess for a path. -/
structure MimeEnv where
  guessType : String → Option String

/-- Count of bytes in a chunk that are printable ASCII (32..126) or tab, LF, CR
(the sum in FileChangeHandler.is_text_file). -/
def textChars (chunk : List Nat) : Nat :=
  chunk.countP (fun b => (32 ≤ b && b ≤ 126) || b == 9 || b == 10 || b == 13)

/-- The handler's MIME test: mime_type is truthy and starts with "text/". -/
def mimeIsText (env : MimeEnv) (p : String) : Bool :=
  match env.guessType p with
  | some m => !(m == "") && listPrefixOf "text/".toList m.toList
  | none => false

/-- FileChangeHandler.is_text_file. The Python float comparison
text_chars / len(chunk) > 0.7 is modelled by the exact rational comparison
7 * len(chunk) < 10 * text_chars: for chunk lengths up to 1024 the two integer
quotients t/n lie at least 1/10240 away from 7/10 whenever they differ from it,
which dwarfs double rounding error, and at t/n = 7/10 both comparisons are
false, so the integer form agrees with the float form on every input the code
can produce. -/
def is_text_file (env : MimeEnv) (fs : FileSystem) (file_path : String) : Bool :=
  if !(fs.isFile file_path) then false
  else if text_extensions.contains (asciiLower (pySuffix file_path)) then true
  else if mimeIsText env file_path then true
  else if !(fs.readOk file_path) then false
  else
    let chunk := (fs.byteContent file_path).take 1024
    if chunk.isEmpty then false
    else decide (7 * chunk.length < 10 * textChars chunk)

/-- The extension-based shortcut of is_text_file, named for use in hypotheses. -/
def extIsKnownText (p : String) : Bool :=
  text_extensions.contains (asciiLower (pySuffix p))

/-- MIME environment that guesses nothing. -/
def mimeNone : MimeEnv := ⟨fun _ => none⟩

/-- A filesystem holding a single file "data.bin" of 1024 printable-ASCII bytes. -/
def fsAllPrintable : FileSystem where
  isFile := fun p => p == "data.bin"
  pathExists := fun p => p == "data.bin"
  byteContent := fun p => if p == "data.bin" then List.replicate 1024 65 else []
  readOk := fun _ => true
  getSize := fun p => if p == "data.bin" then 1024 else 0
  textContent := fun _ => ""

/-- A filesystem holding a single file "data.bin" of 1024 zero bytes. -/
def fsAllZero : FileSystem where
  isFile := fun p => p == "data.bin"
  pathExists := fun p => p == "data.bin"
  byteContent := fun p => if p == "data.bin" then List.replicate 1024 0 else []
  readOk := fun _ => true
  getSize := fun p => if p == "data.bin" then 1024 else 0
  textContent := fun _ => ""

/-- C2: on an existing regular file whose extension is outside the known-text set
and whose MIME guess is not text, classification is exactly the 1024-byte
sampling rule -- not-text on read failure, not-text on an empty sample, text iff
the printable fraction exceeds 0.70; the verdict depends only on the file's
bytes (determinism); 1024 printable bytes classify as text and 1024 zero bytes
as binary. -/
theorem C2_is_text_file_sampling (env : MimeEnv) (fs fs' : FileSystem) (p : String)
    (hf : fs.isFile p = true)
    (hext : extIsKnownText p = false)
    (hmime : mimeIsText env p = false) :
    (is_text_file env fs p =
      if fs.readOk p then
        (let chunk := (fs.byteContent p).take 1024
         if chunk.isEmpty then false
         else decide (7 * chunk.length < 10 * textChars chunk))
      else false)
    ∧ (fs'.isFile p = fs.isFile p → fs'.readOk p = fs.readOk p →
        fs'.byteContent p = fs.byteContent p →
        is_text_file env fs' p = is_text_file env fs p)
    ∧ is_text_file mimeNone fsAllPrintable "data.bin" = true
    ∧ is_text_file mimeNone fsAllZero "data.bin" = false := by
  have hext' : text_extensions.contains (asciiLower (pySuffix p)) = false := hext
  refine ⟨?_, ?_, by decide, by decide⟩
  · simp only [is_text_file, hf, hext', hmime, Bool.not_true, Bool.false_eq_true,
      if_false]
    cases hro : fs.readOk p <;> simp [hro]
  · intro h1 h2 h3
    have hf' : fs'.isFile p = true := h1.trans hf
    simp only [is_text_file, hf, hf', hext', hmime, h2, h3]

/-- Witness for C2: the all-zero 1024-byte file is classified by sampling, and the
sampling rule classifies it as binary. -/
theorem C2_witness :
    is_text_file mimeNone fsAllZero "data.bin" =
      (if fsAllZero.readOk "data.bin" then
        (let chunk := (fsAllZero.byteContent "data.bin").take 1024
         if chunk.isEmpty then false
         else decide (7 * chunk.length < 10 * textChars chunk))
      else false) :=
  (C2_is_text_file_sampling mimeNone fsAllZero fsAllZero "data.bin"
    (by decide) (by decide) rfl).1

/-- Python str.isspace characters relevant to str.strip. -/
def isSpaceChar (c : Char) : Bool :=
  c == ' ' || c == '\t' || c == '\n' || c == '\r' || c == '\x0b' || c == '\x0c'

/-- Python str.strip(): drop whitespace from both ends. -/
def pyStrip (s : String) : String :=
  String.mk (((s.toList.dropWhile isSpaceChar).reverse.dropWhile isSpaceChar).reverse)

/-- The fixed built-in default ignore patterns of load_ignore_patterns. -/
def default_patterns : List String :=
  [".git", "__pycache__", ".DS_Store", ".Trash", "Thumbs.db"]

/-- FileChangeHandler.load_ignore_patterns. The command-line string is split on
commas and stripped; the three config arrays arrive already parsed from JSON
(file IO is outside the model). Python's list(set(...)) removes duplicates and
empty strings in unspecified order; it is modelled as an order-preserving dedup,
and should_ignore only depends on membership. -/
def load_ignore_patterns (cli : Option String)
    (configPatterns configFolders configFiles : List String) : List String :=
  let patterns := default_patterns
    ++ (match cli with
        | some s => ((splitOnChar ',' s.toList).map String.mk).map pyStrip
        | none => [])
    ++ configPatterns ++ configFolders ++ configFiles
  (patterns.filter (fun p => !(p == ""))).dedup

/-- FileChangeHandler.get_file_size: the size when the path is currently a
regular file, absent otherwise. (The source also swallows OSError from
os.path.getsize; in this race-free model a present regular file always has a
readable size.) -/
def get_file_size (fs : FileSystem) (p : String) : Option Nat :=
  if fs.isFile p then some (fs.getSize p) else none

/-- Component form of posixpath.relpath: strip the common leading components,
then one ".." per remaining base component followed by the remaining path
components. (abspath normalisation is outside the model: both arguments are
taken as rooted at the same directory, as the monitor passes them.) -/
def relpathList : List String → List String → List String
  | ps, [] => ps
  | [], b :: bs => (b :: bs).map (fun _ => "..")
  | p :: ps, b :: bs =>
    if p == b then relpathList ps bs
    else (b :: bs).map (fun _ => "..") ++ (p :: ps)

/-- Join path components with slashes; the empty component list renders as ".",
as posixpath.relpath returns curdir for identical paths. -/
def joinSlash : List String → String
  | [] => "."
  | c :: rest => rest.foldl (fun acc x => acc ++ "/" ++ x) c

/-- posixpath.relpath over the component model. -/
def relpath (p base : String) : String :=
  let pc := (slashComponents p).filter (fun c => !(c == "" || c == "."))
  let bc := (slashComponents base).filter (fun c => !(c == "" || c == "."))
  joinSlash (relpathList pc bc)

/-- FileChangeHandler.get_relative_path: relpath against the base when one is
set, the path unchanged otherwise. (The ValueError fallback of the source
cannot fire for POSIX paths sharing a root, so it is not modelled.) -/
def get_relative_path (base : Option String) (p : String) : String :=
  match base with
  | some b => relpath p b
  | none => p

/-- State of a FileChangeHandler: the loaded rule set, whether each manager is
attached and its connected flag, the monitored base path, and the mode string
(stored upper-cased by __init__). -/
structure Handler where
  ignore_patterns : List String
  has_sftp : Bool
  sftp_connected : Bool
  has_db : Bool
  db_connected : Bool
  local_base_path : Option String
  mode : String

/-- ASCII upper-casing of one character (Python str.upper on the mode strings). -/
def asciiUpperChar (c : Char) : Char :=
  if 97 ≤ c.toNat ∧ c.toNat ≤ 122 then Char.ofNat (c.toNat - 32) else c

/-- ASCII upper-casing of a string. -/
def asciiUpper (s : String) : String :=
  String.mk (s.toList.map asciiUpperChar)

/-- FileChangeHandler.__init__: stores the managers' references and upper-cases
the mode argument. -/
def mkHandler (patterns : List String) (hasS connS hasD connD : Bool)
    (base : Option String) (mode : String) : Handler :=
  ⟨patterns, hasS, connS, hasD, connD, base, asciiUpper mode⟩

/-- A task on the DatabaseManager queue: the op string with its argument tuple. -/
inductive DBTask where
  | log (event_type file_path : String) (old_path new_path : Option String)
      (file_size : Option Nat) (text_flag : Option Bool) (sync_status : String)
  | save_version (file_path : String)
  | update_sync (file_path sync_status : String) (event_type : Option String)
  deriving DecidableEq

/-- A task on the SFTPManager queue: the op string with its argument tuple. -/
inductive SFTPTask where
  | upload (local_path relative_path : String)
  | delete (relative_path : String)
  | move (old_rel new_rel : String)
  deriving DecidableEq

/-- Everything one router callback emits: printed lines and the tasks enqueued
to each backend, in order. -/
structure RouterResult where
  stdout : List String
  dbTasks : List DBTask
  sftpTasks : List SFTPTask
  deriving DecidableEq

/-- FileChangeHandler.format_event, with datetime.now() passed in as `now`. -/
def format_event (now event_type file_path : String) (text_flag : Option Bool) :
    String :=
  match text_flag with
  | some b =>
      "[" ++ now ++ "] " ++ event_type ++ ": " ++ file_path ++
        (if b then " [TEXT]" else " [BINARY]")
  | none => "[" ++ now ++ "] " ++ event_type ++ ": " ++ file_path

/-- FileChangeHandler.log_to_database: only in HOST mode with an attached,
connected database manager; enqueues the log task (queue_operation re-checks
the same connected flag) and, for truthy text flag on CREATED/MODIFIED with a
truthy path, the save_version task. -/
def log_to_database (h : Handler) (fs : FileSystem) (event_type file_path : String)
    (old_path new_path : Option String) (text_flag : Option Bool) : List DBTask :=
  if h.mode == "HOST" && h.has_db && h.db_connected then
    let file_size := if file_path == "" then none else get_file_size fs file_path
    [DBTask.log event_type file_path old_path new_path file_size text_flag "PENDING"]
    ++ (if text_flag == some true
          && (event_type == "CREATED" || event_type == "MODIFIED")
          && !(file_path == "") then
          [DBTask.save_version file_path]
        else [])
  else []

/-- FileChangeHandler.on_created. -/
def on_created (h : Handler) (env : MimeEnv) (fs : FileSystem)
    (is_directory : Bool) (src_path now : String) : RouterResult :=
  if is_directory || should_ignore h.ignore_patterns src_path then ⟨[], [], []⟩
  else
    let t := is_text_file env fs src_path
    { stdout := [format_event now "CREATED" src_path (some t)]
      dbTasks := log_to_database h fs "CREATED" src_path none none (some t)
      sftpTasks :=
        if h.has_sftp && h.sftp_connected then
          [SFTPTask.upload src_path (get_relative_path h.local_base_path src_path)]
        else [] }

/-- FileChangeHandler.on_modified. -/
def on_modified (h : Handler) (env : MimeEnv) (fs : FileSystem)
    (is_directory : Bool) (src_path now : String) : RouterResult :=
  if is_directory || should_ignore h.ignore_patterns src_path then ⟨[], [], []⟩
  else
    let t := is_text_file env fs src_path
    { stdout := [format_event now "MODIFIED" src_path (some t)]
      dbTasks := log_to_database h fs "MODIFIED" src_path none none (some t)
      sftpTasks :=
        if h.has_sftp && h.sftp_connected then
          [SFTPTask.upload src_path (get_relative_path h.local_base_path src_path)]
        else [] }

/-- FileChangeHandler.on_deleted: no text classification is attempted. -/
def on_deleted (h : Handler) (_env : MimeEnv) (fs : FileSystem)
    (is_directory : Bool) (src_path now : String) : RouterResult :=
  if is_directory || should_ignore h.ignore_patterns src_path then ⟨[], [], []⟩
  else
    { stdout := [format_event now "DELETED" src_path none]
      dbTasks := log_to_database h fs "DELETED" src_path none none none
      sftpTasks :=
        if h.has_sftp && h.sftp_connected then
          [SFTPTask.delete (get_relative_path h.local_base_path src_path)]
        else [] }

/-- FileChangeHandler.on_moved: discarded when either endpoint is ignored;
classification runs against the destination only when it currently exists. -/
def on_moved (h : Handler) (env : MimeEnv) (fs : FileSystem)
    (is_directory : Bool) (src_path dest_path now : String) : RouterResult :=
  if is_directory then ⟨[], [], []⟩
  else if should_ignore h.ignore_patterns src_path
      || should_ignore h.ignore_patterns dest_path then ⟨[], [], []⟩
  else
    let t : Option Bool :=
      if fs.pathExists dest_path then some (is_text_file env fs dest_path) else none
    { stdout := [format_event now "MOVED" (src_path ++ " -> " ++ dest_path) t]
      dbTasks := log_to_database h fs "MOVED" dest_path (some src_path) (some dest_path) t
      sftpTasks :=
        if h.has_sftp && h.sftp_connected then
          [SFTPTask.move (get_relative_path h.local_base_path src_path)
            (get_relative_path h.local_base_path dest_path)]
        else [] }

/-- UTF-8 byte length of one character (Python len(c.encode('utf-8'))). -/
def charUtf8Len (c : Char) : Nat :=
  if c.toNat < 128 then 1
  else if c.toNat < 2048 then 2
  else if c.toNat < 65536 then 3
  else 4

/-- UTF-8 byte length of a string (Python len(s.encode('utf-8'))). -/
def utf8Len (s : String) : Nat :=
  (s.toList.map charUtf8Len).sum

/-- One row of the file_activity table (timestamps abstracted away; rows are
kept in insertion order, which follows their timestamp order). -/
structure ActivityRow where
  event_type : String
  file_path : String
  old_path : Option String
  new_path : Option String
  file_size : Option Nat
  is_text_file : Option Bool
  file_extension : Option String
  sync_status : String
  deriving DecidableEq

/-- One row of the file_versions table. id models the AUTO_INCREMENT key. -/
structure VersionRow where
  id : Nat
  file_path : String
  file_content : String
  file_size : Nat
  checksum : String
  deriving DecidableEq

/-- An item travelling on a worker queue: a real task or the shutdown sentinel
(the None the managers put to stop the worker). -/
inductive QItem (α : Type) where
  | sentinel
  | task (t : α)
  deriving DecidableEq

/-- Observable events of one consumer-loop run. -/
inductive WEvent (α : Type) where
  | reconnectAttempt (ok : Bool)
  | dropped (t : α)
  | executed (t : α)
  | execError (t : α)
  | stopped
  deriving DecidableEq

/-- The consumer loop shared verbatim by SFTPManager._worker_loop and
DatabaseManager._worker_loop, over the already-received queue contents: a
sentinel stops the loop; for a real task, a down connection triggers exactly
one reconnect attempt (outcomes supplied by the oracle list rc, an exhausted
oracle meaning failure), a failed attempt drops the task and continues, and
dispatch applies the backend handler exec keyed by the task's operation kind;
a handler that raises (per the raises oracle) is caught, leaving the backend
state unchanged, and the loop continues. -/
def worker_loop {α σ : Type} (exec : σ → α → σ) (raises : α → Bool) :
    List (QItem α) → Bool → List Bool → σ → σ × List (WEvent α)
  | [], _, _, st => (st, [])
  | QItem.sentinel :: _, _, _, st => (st, [WEvent.stopped])
  | QItem.task t :: rest, connected, rc, st =>
    if connected then
      if raises t then
        let r := worker_loop exec raises rest true rc st
        (r.1, WEvent.execError t :: r.2)
      else
        let r := worker_loop exec raises rest true rc (exec st t)
        (r.1, WEvent.executed t :: r.2)
    else if rc.headD false then
      if raises t then
        let r := worker_loop exec raises rest true rc.tail st
        (r.1, WEvent.reconnectAttempt true :: WEvent.execError t :: r.2)
      else
        let r := worker_loop exec raises rest true rc.tail (exec st t)
        (r.1, WEvent.reconnectAttempt true :: WEvent.executed t :: r.2)
    else
      let r := worker_loop exec raises rest false rc.tail st
      (r.1, WEvent.reconnectAttempt false :: WEvent.dropped t :: r.2)

/-- The tasks a trace handed to the backend handler, in order (a raising handler
was still invoked on its task). -/
def dispatched {α : Type} : List (WEvent α) → List α
  | [] => []
  | WEvent.executed t :: es => t :: dispatched es
  | WEvent.execError t :: es => t :: dispatched es
  | _ :: es => dispatched es

namespace SFTPManager

/-- SFTPManager.queue_operation: append to the queue only while the connected
flag is true; otherwise the task is dropped, not buffered. -/
def queue_operation (connected : Bool) (q : List (QItem SFTPTask)) (t : SFTPTask) :
    List (QItem SFTPTask) :=
  if connected then q ++ [QItem.task t] else q

end SFTPManager

namespace DatabaseManager

/-- DatabaseManager.queue_operation: same drop-on-disconnect policy as the SFTP
worker. -/
def queue_operation (connected : Bool) (q : List (QItem DBTask)) (t : DBTask) :
    List (QItem DBTask) :=
  if connected then q ++ [QItem.task t] else q

/-- DatabaseManager.log_activity: insert one file_activity row; the extension
column is Path(file_path).suffix when the path is truthy. -/
def log_activity (rows : List ActivityRow) (event_type file_path : String)
    (old_path new_path : Option String) (file_size : Option Nat)
    (text_flag : Option Bool) (sync_status : String) : List ActivityRow :=
  let ext : Option String := if file_path == "" then none else some (pySuffix file_path)
  rows ++ [⟨event_type, file_path, old_path, new_path, file_size, text_flag, ext,
    sync_status⟩]

/-- Update the first row satisfying pred (helper for update_sync_status). -/
def updateFirst (pred : ActivityRow → Bool) (f : ActivityRow → ActivityRow) :
    List ActivityRow → List ActivityRow
  | [] => []
  | r :: rs => if pred r then f r :: rs else r :: updateFirst pred f rs

/-- DatabaseManager.update_sync_status: set sync_status on the most recent row
matching the path (and the event type when given) -- rows are in timestamp
order, so the most recent match is the last one. -/
def update_sync_status (rows : List ActivityRow) (file_path sync_status : String)
    (event_type : Option String) : List ActivityRow :=
  let pred := fun (r : ActivityRow) =>
    r.file_path == file_path &&
      (match event_type with
       | some et => r.event_type == et
       | none => true)
  (updateFirst pred (fun r => { r with sync_status := sync_status }) rows.reverse).reverse

/-- Python truthiness of an optional string: None and "" are falsy. -/
def pyTruthyStr : Option String → Bool
  | none => false
  | some s => !(s == "")

/-- DatabaseManager.save_file_version: when the supplied content is falsy and the
path exists, read the file's text (a raising read is caught and saves nothing);
then insert one file_versions row only for non-falsy content, with the UTF-8
byte size and the SHA-256 hex digest of the content. The digest function is
abstracted as the hash parameter; only its application to the content matters
here. -/
def save_file_version (hash : String → String) (fs : FileSystem)
    (rows : List VersionRow) (file_path : String) (file_content : Option String) :
    List VersionRow :=
  let c : Option String :=
    if !(pyTruthyStr file_content) && fs.pathExists file_path then
      if fs.readOk file_path then some (fs.textContent file_path) else none
    else file_content
  match c with
  | none => rows
  | some s =>
    if s == "" then rows
    else rows ++ [⟨rows.length + 1, file_path, s, utf8Len s, hash s⟩]

/-- DatabaseManager.get_file_versions: the most recent `limit` versions of the
path, newest first. -/
def get_file_versions (rows : List VersionRow) (file_path : String) (limit : Nat) :
    List VersionRow :=
  ((rows.filter (fun r => r.file_path == file_path)).reverse).take limit

/-- DatabaseManager.restore_file_version: look the row up by id and return the
write it performs -- target path (the stored path when the target argument is
falsy) and the stored content written verbatim; none when the id is absent.
Directory creation is a filesystem side effect outside the model. -/
def restore_file_version (rows : List VersionRow) (version_id : Nat)
    (target_path : Option String) : Option (String × String) :=
  match rows.find? (fun r => r.id == version_id) with
  | some r =>
    let tp := match target_path with
      | some tgt => if tgt == "" then r.file_path else tgt
      | none => r.file_path
    some (tp, r.file_content)
  | none => none

end DatabaseManager

/-- The persistent state the database worker mutates. -/
structure DBState where
  activity : List ActivityRow
  versions : List VersionRow
  deriving DecidableEq

/-- The dispatch table of DatabaseManager._worker_loop: op kind 'log' runs
log_activity, 'update_sync' runs update_sync_status, 'save_version' runs
save_file_version (with content defaulted to None, as the queued call site
passes only the path). -/
def applyDBTask (hash : String → String) (fs : FileSystem) (st : DBState) :
    DBTask → DBState
  | DBTask.log et fp op np sz tf status =>
    { st with activity := DatabaseManager.log_activity st.activity et fp op np sz tf status }
  | DBTask.save_version fp =>
    { st with versions := DatabaseManager.save_file_version hash fs st.versions fp none }
  | DBTask.update_sync fp status et =>
    { st with activity := DatabaseManager.update_sync_status st.activity fp status et }

/-- Step equation of the consumer loop: with the connection up, the head task is
handed to its handler (a raising handler is caught) and the loop continues. -/
theorem worker_loop_cons_connected {α σ : Type} (exec : σ → α → σ) (raises : α → Bool)
    (t : α) (rest : List (QItem α)) (rc : List Bool) (st : σ) :
    worker_loop exec raises (QItem.task t :: rest) true rc st =
      (let r := worker_loop exec raises rest true rc (if raises t then st else exec st t)
       (r.1, (if raises t then WEvent.execError t else WEvent.executed t) :: r.2)) := by
  cases hru : raises t <;> simp [worker_loop, hru]

/-- Step equation of the consumer loop: with the connection down and the single
reconnect attempt failing, the head task is dropped (not requeued) and the loop
continues on the remaining queue with the state untouched. -/
theorem worker_loop_cons_reconnect_fail {α σ : Type} (exec : σ → α → σ)
    (raises : α → Bool) (t : α) (rest : List (QItem α)) (rc : List Bool) (st : σ)
    (hrc : rc.headD false = false) :
    worker_loop exec raises (QItem.task t :: rest) false rc st =
      (let r := worker_loop exec raises rest false rc.tail st
       (r.1, WEvent.reconnectAttempt false :: WEvent.dropped t :: r.2)) := by
  cases rc with
  | nil => simp [worker_loop]
  | cons b bs =>
    simp only [List.headD_cons] at hrc
    subst hrc
    simp [worker_loop]

/-- Step equation of the consumer loop: with the connection down and the single
reconnect attempt succeeding, the head task is dispatched and the loop continues
connected. -/
theorem worker_loop_cons_reconnect_ok {α σ : Type} (exec : σ → α → σ)
    (raises : α → Bool) (t : α) (rest : List (QItem α)) (rc : List Bool) (st : σ)
    (hrc : rc.headD false = true) :
    worker_loop exec raises (QItem.task t :: rest) false rc st =
      (let r := worker_loop exec raises rest true rc.tail (if raises t then st else exec st t)
       (r.1, WEvent.reconnectAttempt true ::
         (if raises t then WEvent.execError t else WEvent.executed t) :: r.2)) := by
  cases rc with
  | nil => simp at hrc
  | cons b bs =>
    simp only [List.headD_cons] at hrc
    subst hrc
    cases hru : raises t <;> simp [worker_loop, hru]

/-- Every task the worker hands to a backend handler was on the queue: the loop
invents no tasks, so a task that never reached the queue never reaches the
backend. -/
theorem task_mem_of_mem_dispatched {α σ : Type} (exec : σ → α → σ)
    (raises : α → Bool) (t : α) :
    ∀ (q : List (QItem α)) (c : Bool) (rc : List Bool) (st : σ),
      t ∈ dispatched (worker_loop exec raises q c rc st).2 → QItem.task t ∈ q := by
  intro q
  induction q with
  | nil =>
    intro c rc st h
    simp [worker_loop, dispatched] at h
  | cons hd rest ih =>
    intro c rc st h
    cases hd with
    | sentinel =>
      simp [worker_loop, dispatched] at h
    | task u =>
      cases c with
      | true =>
        cases hru : raises u with
        | true =>
          simp [worker_loop, hru, dispatched] at h
          rcases h with rfl | h
          · exact List.mem_cons_self _ _
          · exact List.mem_cons_of_mem _ (ih true rc _ h)
        | false =>
          simp [worker_loop, hru, dispatched] at h
          rcases h with rfl | h
          · exact List.mem_cons_self _ _
          · exact List.mem_cons_of_mem _ (ih true rc _ h)
      | false =>
        cases rc with
        | nil =>
          simp [worker_loop, dispatched] at h
          exact List.mem_cons_of_mem _ (ih false [] st h)
        | cons b bs =>
          cases b with
          | false =>
            simp [worker_loop, dispatched] at h
            exact List.mem_cons_of_mem _ (ih false bs st h)
          | true =>
            cases hru : raises u with
            | true =>
              simp [worker_loop, hru, dispatched] at h
              rcases h with rfl | h
              · exact List.mem_cons_self _ _
              · exact List.mem_cons_of_mem _ (ih true bs _ h)
            | false =>
              simp [worker_loop, hru, dispatched] at h
              rcases h with rfl | h
              · exact List.mem_cons_self _ _
              · exact List.mem_cons_of_mem _ (ih true bs _ h)

/-- On a fully connected run with no raising handler, the worker folds its
handler over the tasks in queue order and the trace executes them in order. -/
theorem worker_loop_all_connected {α σ : Type} (exec : σ → α → σ) (ts : List α) :
    ∀ (rc : List Bool) (st : σ),
      worker_loop exec (fun _ => false) (ts.map QItem.task) true rc st
        = (ts.foldl exec st, ts.map WEvent.executed) := by
  induction ts with
  | nil => intro rc st; simp [worker_loop]
  | cons t ts ih => intro rc st; simp [worker_loop, ih]

/-- Reading the dispatched tasks back off an all-executed trace. -/
theorem dispatched_map_executed {α : Type} (ts : List α) :
    dispatched (ts.map WEvent.executed) = ts := by
  induction ts with
  | nil => rfl
  | cons t ts ih => simp [dispatched, ih]

/-- Folding snoc over a list appends it. -/
theorem foldl_snoc_eq_append {α : Type} (ts : List α) :
    ∀ l : List α, List.foldl (fun acc t => acc ++ [t]) l ts = l ++ ts := by
  induction ts with
  | nil => intro l; simp
  | cons t ts ih => intro l; simp [ih]

/-- Enqueueing a task list to a connected SFTP worker queues it in order. -/
theorem sftp_enqueue_connected (ts : List SFTPTask) :
    ∀ q, List.foldl (SFTPManager.queue_operation true) q ts = q ++ ts.map QItem.task := by
  induction ts with
  | nil => intro q; simp
  | cons t ts ih => intro q; simp [List.foldl, SFTPManager.queue_operation, ih]

/-- Enqueueing a task list to a connected database worker queues it in order. -/
theorem db_enqueue_connected (ts : List DBTask) :
    ∀ q, List.foldl (DatabaseManager.queue_operation true) q ts = q ++ ts.map QItem.task := by
  induction ts with
  | nil => intro q; simp
  | cons t ts ih => intro q; simp [List.foldl, DatabaseManager.queue_operation, ih]

/-- C5: for both workers, queue_operation appends the task to the FIFO tail
exactly when the connected flag is true and drops it (queue unchanged, nothing
buffered) when the flag is false, so a task enqueued while disconnected never
appears among the tasks the worker hands to its backend. -/
theorem C5_enqueue_drop_on_disconnect {σ₁ σ₂ : Type} (t1 : SFTPTask) (t2 : DBTask)
    (q1 : List (QItem SFTPTask)) (q2 : List (QItem DBTask))
    (exec1 : σ₁ → SFTPTask → σ₁) (raises1 : SFTPTask → Bool)
    (c1 : Bool) (rc1 : List Bool) (st1 : σ₁)
    (exec2 : σ₂ → DBTask → σ₂) (raises2 : DBTask → Bool)
    (c2 : Bool) (rc2 : List Bool) (st2 : σ₂) :
    SFTPManager.queue_operation true q1 t1 = q1 ++ [QItem.task t1]
    ∧ SFTPManager.queue_operation false q1 t1 = q1
    ∧ DatabaseManager.queue_operation true q2 t2 = q2 ++ [QItem.task t2]
    ∧ DatabaseManager.queue_operation false q2 t2 = q2
    ∧ (QItem.task t1 ∉ q1 →
        t1 ∉ dispatched (worker_loop exec1 raises1
          (SFTPManager.queue_operation false q1 t1) c1 rc1 st1).2)
    ∧ (QItem.task t2 ∉ q2 →
        t2 ∉ dispatched (worker_loop exec2 raises2
          (DatabaseManager.queue_operation false q2 t2) c2 rc2 st2).2) := by
  refine ⟨rfl, rfl, rfl, rfl, ?_, ?_⟩
  · intro hq hmem
    exact hq (task_mem_of_mem_dispatched exec1 raises1 t1 _ c1 rc1 st1 hmem)
  · intro hq hmem
    exact hq (task_mem_of_mem_dispatched exec2 raises2 t2 _ c2 rc2 st2 hmem)

/-- Witness for C5: an upload task enqueued to a disconnected SFTP worker with an
empty queue is never handed to the backend. -/
theorem C5_witness :
    SFTPTask.upload "root/a.txt" "a.txt" ∉
      dispatched (worker_loop (fun (hist : List SFTPTask) t => hist ++ [t])
        (fun _ => false)
        (SFTPManager.queue_operation false [] (SFTPTask.upload "root/a.txt" "a.txt"))
        true [] []).2 :=
  (C5_enqueue_drop_on_disconnect (SFTPTask.upload "root/a.txt" "a.txt")
      (DBTask.save_version "x") [] []
      (fun (hist : List SFTPTask) t => hist ++ [t]) (fun _ => false) true [] []
      (fun (hist : List DBTask) t => hist ++ [t]) (fun _ => false) true [] []
    ).2.2.2.2.1 (by simp)

/-- C6: per dequeued real task the consumer loop of either worker behaves as
specified -- connected: dispatch to the handler for the task's kind, catching a
raising handler and continuing; disconnected: exactly one reconnect attempt,
whose failure drops the task (state untouched, rest of the queue unchanged, so
no requeue) and whose success dispatches the task; and a sentinel stops the
loop. -/
theorem C6_worker_loop_step {α σ : Type} (exec : σ → α → σ) (raises : α → Bool)
    (t : α) (rest : List (QItem α)) (rc : List Bool) (st : σ) :
    (worker_loop exec raises (QItem.task t :: rest) true rc st =
      (let r := worker_loop exec raises rest true rc (if raises t then st else exec st t)
       (r.1, (if raises t then WEvent.execError t else WEvent.executed t) :: r.2)))
    ∧ (rc.headD false = false →
        worker_loop exec raises (QItem.task t :: rest) false rc st =
          (let r := worker_loop exec raises rest false rc.tail st
           (r.1, WEvent.reconnectAttempt false :: WEvent.dropped t :: r.2)))
    ∧ (rc.headD false = true →
        worker_loop exec raises (QItem.task t :: rest) false rc st =
          (let r := worker_loop exec raises rest true rc.tail
            (if raises t then st else exec st t)
           (r.1, WEvent.reconnectAttempt true ::
             (if raises t then WEvent.execError t else WEvent.executed t) :: r.2)))
    ∧ worker_loop exec raises (QItem.sentinel :: rest) true rc st = (st, [WEvent.stopped]) :=
  ⟨worker_loop_cons_connected exec raises t rest rc st,
   worker_loop_cons_reconnect_fail exec raises t rest rc st,
   worker_loop_cons_reconnect_ok exec raises t rest rc st,
   rfl⟩

/-- Witness for C6: a database worker that is down and whose reconnect attempt
fails drops the dequeued save_version task and stops at the following sentinel. -/
theorem C6_witness :
    worker_loop (applyDBTask (fun s => s) fsAllZero) (fun _ => false)
        [QItem.task (DBTask.save_version "data.bin"), QItem.sentinel]
        false [false] ⟨[], []⟩ =
      (⟨[], []⟩, [WEvent.reconnectAttempt false,
        WEvent.dropped (DBTask.save_version "data.bin"), WEvent.stopped]) := by
  have h := (C6_worker_loop_step (applyDBTask (fun s => s) fsAllZero) (fun _ => false)
    (DBTask.save_version "data.bin") [QItem.sentinel] [false] ⟨[], []⟩).2.1 rfl
  exact h.trans (by simp [worker_loop])

/-- C9: tasks enqueued to a connected worker are executed by its single consumer
strictly in enqueue order -- for the SFTP worker the backend operation history
equals the enqueued list, and for both workers the dispatch trace executes the
tasks in exactly the enqueued order. -/
theorem C9_fifo_order (ts1 : List SFTPTask) (ts2 : List DBTask)
    (hash : String → String) (fs : FileSystem) (rc1 rc2 : List Bool) (st2 : DBState) :
    ((worker_loop (fun (hist : List SFTPTask) t => hist ++ [t]) (fun _ => false)
        (List.foldl (SFTPManager.queue_operation true) [] ts1) true rc1 []).1 = ts1)
    ∧ dispatched ((worker_loop (fun (hist : List SFTPTask) t => hist ++ [t])
        (fun _ => false)
        (List.foldl (SFTPManager.queue_operation true) [] ts1) true rc1 []).2) = ts1
    ∧ dispatched ((worker_loop (applyDBTask hash fs) (fun _ => false)
        (List.foldl (DatabaseManager.queue_operation true) [] ts2) true rc2 st2).2) = ts2 := by
  have h1 := sftp_enqueue_connected ts1 []
  have h2 := db_enqueue_connected ts2 []
  simp only [List.nil_append] at h1 h2
  refine ⟨?_, ?_, ?_⟩
  · rw [h1, worker_loop_all_connected]
    simp [foldl_snoc_eq_append]
  · rw [h1, worker_loop_all_connected]
    exact dispatched_map_executed ts1
  · rw [h2, worker_loop_all_connected]
    exact dispatched_map_executed ts2

/-- Timestamp string used by the concrete scenarios. -/
def now0 : String := "2024-01-01 00:00:00"

/-- Filesystem of the end-to-end scenario: the monitored directory "root" holds
one 10-byte ASCII text file "root/a.txt" with content "helloworld". -/
def fsA : FileSystem where
  isFile := fun p => p == "root/a.txt"
  pathExists := fun p => p == "root/a.txt" || p == "root"
  byteContent := fun p =>
    if p == "root/a.txt" then ("helloworld".toList.map Char.toNat) else []
  readOk := fun _ => true
  getSize := fun p => if p == "root/a.txt" then 10 else 0
  textContent := fun p => if p == "root/a.txt" then "helloworld" else ""

/-- Handler of the end-to-end scenario: defaults-only rule set (the caller passed
no extra ignore patterns), no SFTP manager, an attached connected database
manager, monitoring "root", HOST mode. -/
def hHost : Handler :=
  mkHandler (load_ignore_patterns none [] [] []) false false true true
    (some "root") "HOST"

/-- The same handler in CLIENT mode (the database manager still attached and
connected). -/
def hClient : Handler :=
  mkHandler (load_ignore_patterns none [] [] []) false false true true
    (some "root") "CLIENT"

/-- C3 counterexample: in the claimed scenario the single stdout line renders the
event's raw source path "root/a.txt", not the root-relative "a.txt" the claim
asserts. -/
theorem C3_counterexample :
    (on_created hHost mimeNone fsA false "root/a.txt" now0).stdout =
      ["[2024-01-01 00:00:00] CREATED: root/a.txt [TEXT]"]
    ∧ ("[2024-01-01 00:00:00] CREATED: root/a.txt [TEXT]" ≠
        "[2024-01-01 00:00:00] CREATED: a.txt [TEXT]") := by
  constructor
  · decide
  · decide

/-- C3 amended: the scenario produces exactly one stdout line whose body is
"CREATED: root/a.txt [TEXT]" (the raw event path -- on_created prints
event.src_path, not the root-relative path), and draining the database worker
queue yields exactly one file_activity row with event_type CREATED, file_size
10 and is_text_file true, and exactly one file_versions row with file_size 10
and the checksum freshly computed from the saved content. -/
theorem C3_amended_end_to_end (hash : String → String) :
    (on_created hHost mimeNone fsA false "root/a.txt" now0).stdout =
      ["[2024-01-01 00:00:00] CREATED: root/a.txt [TEXT]"]
    ∧ (worker_loop (applyDBTask hash fsA) (fun _ => false)
        (((on_created hHost mimeNone fsA false "root/a.txt" now0).dbTasks).map QItem.task)
        true [] ⟨[], []⟩).1 =
      ⟨[⟨"CREATED", "root/a.txt", none, none, some 10, some true, some ".txt", "PENDING"⟩],
       [⟨1, "root/a.txt", "helloworld", 10, hash "helloworld"⟩]⟩ := by
  constructor
  · decide
  · rfl

/-- C4 counterexample: a router configuration with an attached, connected
database manager but CLIENT mode receives a non-directory, non-ignored Created
signal and enqueues no task at all to the logging backend. -/
theorem C4_counterexample :
    hClient.has_db = true ∧ hClient.db_connected = true
    ∧ should_ignore hClient.ignore_patterns "root/a.txt" = false
    ∧ (on_created hClient mimeNone fsA false "root/a.txt" now0).dbTasks = [] := by
  refine ⟨rfl, rfl, by decide, by decide⟩

/-- C4 amended: for every non-directory, non-ignored Created or Modified signal,
the router enqueues the Log task carrying kind, path, size and text flag --
plus the SaveVersion task exactly when the file classified as text -- provided
the handler is in HOST mode with an attached, connected database manager;
log_to_database does nothing in any other mode. -/
theorem C4_amended_host_mode_logging (h : Handler) (env : MimeEnv) (fs : FileSystem)
    (p now : String)
    (hmode : h.mode = "HOST") (hdb : h.has_db = true) (hconn : h.db_connected = true)
    (hig : should_ignore h.ignore_patterns p = false) (hp : ¬(p = "")) :
    ((on_created h env fs false p now).dbTasks =
        DBTask.log "CREATED" p none none (get_file_size fs p)
          (some (is_text_file env fs p)) "PENDING"
          :: (if is_text_file env fs p then [DBTask.save_version p] else []))
    ∧ ((on_modified h env fs false p now).dbTasks =
        DBTask.log "MODIFIED" p none none (get_file_size fs p)
          (some (is_text_file env fs p)) "PENDING"
          :: (if is_text_file env fs p then [DBTask.save_version p] else [])) := by
  have hp' : (p == "") = false := by simpa using hp
  have hmode' : (h.mode == "HOST") = true := by simp [hmode]
  constructor
  · simp only [on_created, hig, Bool.or_false, Bool.false_or, if_false]
    cases ht : is_text_file env fs p <;>
      simp [log_to_database, hmode', hdb, hconn, hp', ht]
  · simp only [on_modified, hig, Bool.or_false, Bool.false_or, if_false]
    cases ht : is_text_file env fs p <;>
      simp [log_to_database, hmode', hdb, hconn, hp', ht]

/-- Witness for C4 amended: the HOST-mode scenario handler enqueues the CREATED
log task followed by the save_version task for the text file root/a.txt. -/
theorem C4_witness :
    (on_created hHost mimeNone fsA false "root/a.txt" now0).dbTasks =
      DBTask.log "CREATED" "root/a.txt" none none (get_file_size fsA "root/a.txt")
        (some (is_text_file mimeNone fsA "root/a.txt")) "PENDING"
        :: (if is_text_file mimeNone fsA "root/a.txt" then
              [DBTask.save_version "root/a.txt"] else []) :=
  (C4_amended_host_mode_logging hHost mimeNone fsA "root/a.txt" now0
    (by decide) rfl rfl (by decide) (by decide)).1

/-- Searching an appended singleton when nothing in the front list matches. -/
theorem find_append_singleton {β : Type} (p : β → Bool) (l : List β) (a : β)
    (h : ∀ x ∈ l, p x = false) :
    List.find? p (l ++ [a]) = List.find? p [a] := by
  induction l with
  | nil => rfl
  | cons x xs ih =>
    rw [List.cons_append, List.find?_cons_of_neg _ (by simp [h x (List.mem_cons_self _ _)])]
    exact ih (fun y hy => h y (List.mem_cons_of_mem _ hy))

/-- Filesystem holding one text file "notes/h.txt" with content "hello\n". -/
def fsHello : FileSystem where
  isFile := fun p => p == "notes/h.txt"
  pathExists := fun p => p == "notes/h.txt"
  byteContent := fun p =>
    if p == "notes/h.txt" then [104, 101, 108, 108, 111, 10] else []
  readOk := fun _ => true
  getSize := fun p => if p == "notes/h.txt" then 6 else 0
  textContent := fun p => if p == "notes/h.txt" then "hello\n" else ""

/-- C7: saving a version of a text file whose content is "hello\n" appends one
row whose checksum is the digest of that content and whose size is its UTF-8
byte length (6), and restoring that row by its identifier to a fresh target
writes exactly "hello\n" there -- so the stored checksum equals a fresh digest
of the restored content. -/
theorem C7_save_restore_roundtrip (hash : String → String) (fs : FileSystem)
    (rows : List VersionRow) (path target : String)
    (hex : fs.pathExists path = true) (hro : fs.readOk path = true)
    (htc : fs.textContent path = "hello\n")
    (hfresh : ∀ r ∈ rows, r.id ≠ rows.length + 1)
    (htgt : ¬(target = "")) :
    ∃ r : VersionRow,
      DatabaseManager.save_file_version hash fs rows path none = rows ++ [r]
      ∧ DatabaseManager.restore_file_version (rows ++ [r]) r.id (some target)
          = some (target, "hello\n")
      ∧ r.checksum = hash "hello\n"
      ∧ r.file_size = utf8Len "hello\n"
      ∧ utf8Len "hello\n" = 6 := by
  refine ⟨⟨rows.length + 1, path, "hello\n", utf8Len "hello\n", hash "hello\n"⟩,
    ?_, ?_, rfl, rfl, by decide⟩
  · simp [DatabaseManager.save_file_version, DatabaseManager.pyTruthyStr, hex, hro, htc]
  · have hpred : ∀ x ∈ rows, (x.id == rows.length + 1) = false := by
      intro x hx
      simpa using hfresh x hx
    have htgt' : (target == "") = false := by simpa using htgt
    have hfind : List.find? (fun r : VersionRow => r.id == rows.length + 1)
        (rows ++ [⟨rows.length + 1, path, "hello\n", utf8Len "hello\n", hash "hello\n"⟩])
        = some ⟨rows.length + 1, path, "hello\n", utf8Len "hello\n", hash "hello\n"⟩ := by
      rw [find_append_singleton _ rows _ hpred]
      simp [List.find?]
    simp [DatabaseManager.restore_file_version, hfind, htgt']

/-- Witness for C7: the round trip on a one-file filesystem with the identity
digest and an empty version store. -/
theorem C7_witness :
    ∃ r : VersionRow,
      DatabaseManager.save_file_version (fun s => s) fsHello [] "notes/h.txt" none
        = [] ++ [r]
      ∧ DatabaseManager.restore_file_version ([] ++ [r]) r.id (some "restore/h.txt")
          = some ("restore/h.txt", "hello\n")
      ∧ r.checksum = (fun (s : String) => s) "hello\n"
      ∧ r.file_size = utf8Len "hello\n"
      ∧ utf8Len "hello\n" = 6 :=
  C7_save_restore_roundtrip (fun s => s) fsHello [] "notes/h.txt" "restore/h.txt"
    (by decide) rfl (by decide) (by simp) (by decide)

/-- C8 counterexample: a non-directory Moved signal with neither endpoint ignored
reaches a router with an attached, connected database manager in CLIENT mode
and no SFTP manager: no Log task and no Move task is enqueued, contradicting
the claim's unconditional enqueues. -/
theorem C8_counterexample :
    hClient.has_db = true ∧ hClient.db_connected = true
    ∧ should_ignore hClient.ignore_patterns "root/a.txt" = false
    ∧ should_ignore hClient.ignore_patterns "root/b.txt" = false
    ∧ (on_moved hClient mimeNone fsA false "root/a.txt" "root/b.txt" now0).dbTasks = []
    ∧ (on_moved hClient mimeNone fsA false "root/a.txt" "root/b.txt" now0).sftpTasks = [] := by
  refine ⟨rfl, rfl, by decide, by decide, by decide, by decide⟩

/-- C8 amended: a directory Moved signal is discarded; a Moved signal with either
endpoint ignored is discarded entirely (no output, no tasks); otherwise the
destination is classified only when it currently exists (absent, not false,
otherwise), one line with both paths is printed, the Log task with both
old_path and new_path is enqueued exactly when the handler is in HOST mode
with an attached connected database manager (and no SaveVersion task is ever
enqueued for MOVED), and the Move task with both relative paths is enqueued
exactly when an SFTP manager is attached and connected. -/
theorem C8_moved_routing (h : Handler) (env : MimeEnv) (fs : FileSystem)
    (src dest now : String) (hdne : ¬(dest = "")) :
    (on_moved h env fs true src dest now = ⟨[], [], []⟩)
    ∧ (should_ignore h.ignore_patterns src = true
        ∨ should_ignore h.ignore_patterns dest = true →
        on_moved h env fs false src dest now = ⟨[], [], []⟩)
    ∧ (should_ignore h.ignore_patterns src = false →
        should_ignore h.ignore_patterns dest = false →
        ((on_moved h env fs false src dest now).stdout =
            [format_event now "MOVED" (src ++ " -> " ++ dest)
              (if fs.pathExists dest then some (is_text_file env fs dest) else none)]
        ∧ (on_moved h env fs false src dest now).dbTasks =
            (if h.mode == "HOST" && h.has_db && h.db_connected then
              [DBTask.log "MOVED" dest (some src) (some dest) (get_file_size fs dest)
                (if fs.pathExists dest then some (is_text_file env fs dest) else none)
                "PENDING"]
            else [])
        ∧ (on_moved h env fs false src dest now).sftpTasks =
            (if h.has_sftp && h.sftp_connected then
              [SFTPTask.move (get_relative_path h.local_base_path src)
                (get_relative_path h.local_base_path dest)]
            else []))) := by
  have hdne' : (dest == "") = false := by simpa using hdne
  refine ⟨by simp [on_moved], ?_, ?_⟩
  · rintro (hig | hig) <;> simp [on_moved, hig]
  · intro h1 h2
    refine ⟨?_, ?_, ?_⟩
    · simp [on_moved, h1, h2]
    · cases hc : h.mode == "HOST" && h.has_db && h.db_connected <;>
        simp [on_moved, h1, h2, log_to_database, hc, hdne']
    · simp [on_moved, h1, h2]

/-- Witness for C8 amended: in the HOST-mode scenario the Moved signal from
root/a.txt to root/b.txt enqueues exactly the Log task with both paths. -/
theorem C8_witness :
    (on_moved hHost mimeNone fsA false "root/a.txt" "root/b.txt" now0).dbTasks =
      (if hHost.mode == "HOST" && hHost.has_db && hHost.db_connected then
        [DBTask.log "MOVED" "root/b.txt" (some "root/a.txt") (some "root/b.txt")
          (get_file_size fsA "root/b.txt")
          (if fsA.pathExists "root/b.txt" then
            some (is_text_file mimeNone fsA "root/b.txt") else none)
          "PENDING"]
      else []) :=
  ((C8_moved_routing hHost mimeNone fsA "root/a.txt" "root/b.txt" now0
    (by decide)).2.2 (by decide) (by decide)).2.1

/-- C10: every Log task a non-directory, non-ignored Moved signal enqueues
carries a file_size computed from the destination path alone -- the
destination's current size when it is a regular file and absent otherwise; the
source path's size is never consulted. -/
theorem C10_moved_size_from_destination (h : Handler) (env : MimeEnv)
    (fs : FileSystem) (src dest now : String) (hdne : ¬(dest = "")) :
    ∀ et fp op np sz tf ss,
      DBTask.log et fp op np sz tf ss ∈ (on_moved h env fs false src dest now).dbTasks →
      sz = get_file_size fs dest
      ∧ sz = (if fs.isFile dest = true then some (fs.getSize dest) else none) := by
  intro et fp op np sz tf ss hmem
  have hdne' : (dest == "") = false := by simpa using hdne
  by_cases h1 : should_ignore h.ignore_patterns src = true
  · simp [on_moved, h1] at hmem
  · have h1' : should_ignore h.ignore_patterns src = false := Bool.eq_false_iff.mpr h1
    by_cases h2 : should_ignore h.ignore_patterns dest = true
    · simp [on_moved, h1', h2] at hmem
    · have h2' : should_ignore h.ignore_patterns dest = false := Bool.eq_false_iff.mpr h2
      cases hc : h.mode == "HOST" && h.has_db && h.db_connected with
      | false =>
        simp [on_moved, h1', h2', log_to_database, hc] at hmem
      | true =>
        simp [on_moved, h1', h2', log_to_database, hc, hdne'] at hmem
        obtain ⟨-, -, -, -, hsz, -, -⟩ := hmem
        exact ⟨hsz, hsz.trans (by simp [get_file_size])⟩

/-- Witness for C10: the MOVED log task of the scenario carries no size because
the destination root/b.txt is not a regular file. -/
theorem C10_witness :
    (none : Option Nat) = get_file_size fsA "root/b.txt"
    ∧ (none : Option Nat) =
        (if fsA.isFile "root/b.txt" = true then some (fsA.getSize "root/b.txt") else none) :=
  C10_moved_size_from_destination hHost mimeNone fsA "root/a.txt" "root/b.txt" now0
    (by decide) "MOVED" "root/b.txt" (some "root/a.txt") (some "root/b.txt") none
    none "PENDING" (by decide)

end FileHub
